import Mathlib

/-!
Shallow embedding of the core of the falcon_v2verifier V2X simulator
(`src/falcon-sim/src/Vehicle.cpp`, `src/falcon-sim/Vehicle.h`).

Bytes are modelled as natural numbers, byte buffers as `List ℕ`,
timestamps as integer microseconds (`ℤ`).  The cryptographic
primitives (SHA-256, ECDSA sign/verify, Falcon sign/verify) are out of
scope of the core and are modelled as opaque function parameters
collected in `crypto_env`.
-/

namespace V2V

/-- Constant `Vehicle::MAX_SIGNATURE_FRAGMENT_SIZE` (Vehicle.h line 38). -/
def MAX_SIGNATURE_FRAGMENT_SIZE : ℕ := 512

/-- Constant `Vehicle::MAX_SIGNATURE_TOTAL_SIZE` (Vehicle.h line 39). -/
def MAX_SIGNATURE_TOTAL_SIZE : ℕ := 1536

/-- Value of `signature_scheme::ECDSA` (Vehicle.h line 24). -/
def SCHEME_ECDSA : ℕ := 0

/-- Value of `signature_scheme::FALCON` (Vehicle.h line 25). -/
def SCHEME_FALCON : ℕ := 1

/-- Modelled from the spec: the header `ieee16092.h` is not in `src/`;
§3 of the spec gives tbsData = {BSM, header info} where the header
carries a microsecond-resolution timestamp.  The BSM is opaque to the
core, so it is kept as a byte list. -/
structure tbs_data where
  message : List ℕ
  timestampMicros : ℤ
deriving DecidableEq

/-- Modelled from the spec: SignedData = {tbsData, cert} with the
certificate treated as an opaque byte region (§3). -/
structure signed_data where
  tbsData : tbs_data
  cert : List ℕ
deriving DecidableEq

/-- Modelled from the spec: `ieee1609dot2data_ecdsa_explicit` carries the
SignedData and the certificate signature replicated in every fragment
(§3; usage `spdu.data.signedData`, `spdu.data.certificate_signature` in
Vehicle.cpp). -/
structure ieee1609_data where
  signedData : signed_data
  certificate_signature : List ℕ
deriving DecidableEq

/-- Struct `Vehicle::spdu_fragment` (Vehicle.h lines 52-71).  The llc/wsmp
framing constants are kept with their C++ member initializers; machine
integer fields are modelled as `ℕ` (their C++ widths never overflow on
the values the program computes, see the per-claim bounds). -/
structure spdu_fragment where
  vehicle_id : ℕ := 0
  sequence_number : ℕ := 0
  llc_dsap_ssap : ℕ := 43690
  llc_control : ℕ := 3
  llc_type : ℕ := 35036
  wsmp_n_subtype_opt_version : ℕ := 3
  wsmp_n_tpid : ℕ := 0
  wsmp_t_header_length_and_psid : ℕ := 32
  wsmp_t_length : ℕ := 0
  signature_scheme : ℕ := 0
  fragment_index : ℕ := 0
  fragment_count : ℕ := 1
  signature_buffer_length : ℕ := 0
  fragment_length : ℕ := 0
  signature_offset : ℕ := 0
  certificate_signature_buffer_length : ℕ := 0
  data : ieee1609_data := ⟨⟨⟨[], 0⟩, []⟩, []⟩
  signature_fragment : List ℕ := List.replicate MAX_SIGNATURE_FRAGMENT_SIZE 0
deriving DecidableEq

/-- The opaque cryptographic primitives and key store the core consumes
(spec §1 "trusted opaque operations", §4.7).  `tbs_image` is the raw
byte image `memcpy` takes of the in-memory tbsData struct. -/
structure crypto_env where
  sha256 : List ℕ → List ℕ
  tbs_image : tbs_data → List ℕ
  ecdsa_sign : List ℕ → List ℕ
  ecdsa_verify : List ℕ → List ℕ → ℕ → ℕ → Bool
  falcon_verify : List ℕ → List ℕ → List ℕ → Bool
  load_ecdsa_key : ℕ → Bool → ℕ
  falcon_public_key : ℕ → List ℕ

/-- Function `clamp_fragment_size` (Vehicle.cpp lines 35-40). -/
def clamp_fragment_size (requested maximum : ℕ) : ℕ :=
  if requested = 0 then maximum else min requested maximum

/-- A byte buffer extended with zero bytes to length `n`
(`signature_fragment.fill(0)` followed by a copy of the leading bytes). -/
def padTo (l : List ℕ) (n : ℕ) : List ℕ :=
  l ++ List.replicate (n - l.length) 0

/-- Function `Vehicle::generate_spdu` (Vehicle.cpp lines 388-409): zero/default
initialize the fragment, set identity and sequence, install the BSM,
a fresh timestamp and the certificate, hash the certificate once and
ECDSA-sign that digest with the certificate key, storing signature and
length on the SPDU. -/
def generate_spdu (env : crypto_env) (vehicle_number sequence_number : ℕ)
    (bsm_bytes : List ℕ) (ts : ℤ) (cert : List ℕ) : spdu_fragment :=
  let certificate_digest := env.sha256 cert
  let certificate_signature := env.ecdsa_sign certificate_digest
  { vehicle_id := vehicle_number
    sequence_number := sequence_number
    certificate_signature_buffer_length := certificate_signature.length
    data := { signedData := { tbsData := { message := bsm_bytes, timestampMicros := ts }
                              cert := cert }
              certificate_signature := certificate_signature }
    signature_fragment := List.replicate MAX_SIGNATURE_FRAGMENT_SIZE 0 }

/-- Function `Vehicle::sign_message_ecdsa` (Vehicle.cpp lines 457-477).
`alloc_len` is the `ECDSA_size` upper bound to which the scratch vector
is allocated; `sig` is the actual signature `ecdsa_sign` writes into it
(so `sig.length ≤ alloc_len`).  The C++ exits fatally when
`alloc_len > MAX_SIGNATURE_FRAGMENT_SIZE`, modelled as `none`.  The copy
at line 476 copies the whole `alloc_len`-byte vector (signature bytes
followed by the vector's zero initialisation) over the zero-filled
512-byte fragment array. -/
def sign_message_ecdsa (spdu : spdu_fragment) (alloc_len : ℕ) (sig : List ℕ) :
    Option spdu_fragment :=
  if MAX_SIGNATURE_FRAGMENT_SIZE < alloc_len then
    none
  else
    let signature_vec := sig ++ List.replicate (alloc_len - sig.length) 0
    some { spdu with
      signature_buffer_length := sig.length
      fragment_count := 1
      fragment_index := 0
      fragment_length := sig.length
      signature_offset := 0
      signature_fragment :=
        signature_vec ++ List.replicate (MAX_SIGNATURE_FRAGMENT_SIZE - signature_vec.length) 0 }

/-- One iteration of the fragment loop in `Vehicle::sign_message_falcon`
(Vehicle.cpp lines 503-520): copy the template, tag the scheme, set the
fragmentation metadata and copy this fragment's slice of the signature,
zero-padded to `MAX_SIGNATURE_FRAGMENT_SIZE`. -/
def falconFragment (spdu : spdu_fragment) (signature : List ℕ)
    (fragment_size fragment_count idx : ℕ) : spdu_fragment :=
  let signature_len := signature.length
  let offset := idx * fragment_size
  let bytes_this_fragment := min fragment_size (signature_len - offset)
  { spdu with
    signature_scheme := SCHEME_FALCON
    fragment_count := fragment_count
    fragment_index := idx
    signature_buffer_length := signature_len
    signature_offset := offset
    fragment_length := bytes_this_fragment
    signature_fragment :=
      padTo ((signature.drop offset).take bytes_this_fragment) MAX_SIGNATURE_FRAGMENT_SIZE }

/-- Function `Vehicle::sign_message_falcon` (Vehicle.cpp lines 479-523).  The
Falcon signature over the tbsData image is an input (`falcon_sign` is an
opaque primitive); the function clamps the configured fragment size,
computes `fragment_count = ⌈len / fragment_size⌉` and emits the ordered
fragment list. -/
def sign_message_falcon (spdu : spdu_fragment) (signature : List ℕ)
    (falcon_fragment_size : ℕ) : List spdu_fragment :=
  let fragment_size := clamp_fragment_size falcon_fragment_size MAX_SIGNATURE_FRAGMENT_SIZE
  let fragment_count := (signature.length + fragment_size - 1) / fragment_size
  (List.range fragment_count).map (falconFragment spdu signature fragment_size fragment_count)

/-- Function `Vehicle::prepare_signed_fragments` (Vehicle.cpp lines 86-97):
build the SPDU template, stamp the configured scheme, dispatch to the
scheme's signer.  The ECDSA path emits the single signed fragment. -/
def prepare_signed_fragments (env : crypto_env) (scheme : ℕ)
    (vehicle_number sequence_number : ℕ) (bsm_bytes : List ℕ) (ts : ℤ)
    (cert : List ℕ) (ecdsa_alloc_len : ℕ) (ecdsa_sig : List ℕ)
    (falcon_sig : List ℕ) (falcon_fragment_size : ℕ) :
    Option (List spdu_fragment) :=
  let base := generate_spdu env vehicle_number sequence_number bsm_bytes ts cert
  let base := { base with signature_scheme := scheme }
  if scheme = SCHEME_ECDSA then
    (sign_message_ecdsa base ecdsa_alloc_len ecdsa_sig).map (fun f => [f])
  else
    some (sign_message_falcon base falcon_sig falcon_fragment_size)

/-- Function `Vehicle::verify_message` (Vehicle.cpp lines 525-581): certificate
check (ECDSA over SHA-256 of the certificate bytes), payload check
dispatched on the declared scheme (ECDSA against the SHA-256 of the
tbsData image; Falcon against the raw tbsData image), and the 30 000 ms
freshness window computed in milliseconds.  Always returns a boolean. -/
def verify_message (env : crypto_env) (spdu : spdu_fragment)
    (assembled_signature : List ℕ) (received_time : ℤ) (vehicle_id : ℕ) : Bool :=
  let verification_key := env.load_ecdsa_key vehicle_id false
  let verification_cert_key := env.load_ecdsa_key vehicle_id true
  let certificate_hash := env.sha256 spdu.data.signedData.cert
  let cert_result := env.ecdsa_verify certificate_hash spdu.data.certificate_signature
      spdu.certificate_signature_buffer_length verification_cert_key
  let hash := env.sha256 (env.tbs_image spdu.data.signedData.tbsData)
  let sig_result :=
    if spdu.signature_scheme = SCHEME_ECDSA then
      env.ecdsa_verify hash assembled_signature spdu.signature_buffer_length verification_key
    else
      env.falcon_verify (env.tbs_image spdu.data.signedData.tbsData) assembled_signature
        (env.falcon_public_key vehicle_id)
  let elapsed_ms : ℚ :=
    ((received_time - spdu.data.signedData.tbsData.timestampMicros : ℤ) : ℚ) / 1000
  let recent := elapsed_ms < 30000
  cert_result && sig_result && decide recent

/-- The certificate check of `Vehicle::verify_message` (Vehicle.cpp
lines 535-542): ECDSA verification of the stored certificate signature
against the SHA-256 of the certificate bytes, under the certificate
public key for the claimed vehicle (the claim's `cert_ok`). -/
def cert_check (env : crypto_env) (spdu : spdu_fragment) (vehicle_id : ℕ) : Bool :=
  env.ecdsa_verify (env.sha256 spdu.data.signedData.cert) spdu.data.certificate_signature
    spdu.certificate_signature_buffer_length (env.load_ecdsa_key vehicle_id true)

/-- The payload check of `Vehicle::verify_message` (Vehicle.cpp lines
544-567), dispatching on the declared scheme (the claim's `sig_ok`). -/
def sig_check (env : crypto_env) (spdu : spdu_fragment) (assembled_signature : List ℕ)
    (vehicle_id : ℕ) : Bool :=
  if spdu.signature_scheme = SCHEME_ECDSA then
    env.ecdsa_verify (env.sha256 (env.tbs_image spdu.data.signedData.tbsData))
      assembled_signature spdu.signature_buffer_length (env.load_ecdsa_key vehicle_id false)
  else
    env.falcon_verify (env.tbs_image spdu.data.signedData.tbsData) assembled_signature
      (env.falcon_public_key vehicle_id)

/-- The receiver's per-key reassembly state, `PendingMessage`
(Vehicle.cpp lines 236-241). -/
structure PendingMessage where
  template : spdu_fragment := {}
  signature_buffer : List ℕ := []
  fragments_received : List Bool := []
  first_fragment_time : ℤ := 0
deriving DecidableEq

/-- The default-constructed entry `pending_messages[key]` creates on
first lookup of a key. -/
def freshEntry : PendingMessage := {}

/-- Entry initialisation on an empty signature buffer (Vehicle.cpp
lines 279-287): store the incoming fragment as template with cleared
fragment fields, allocate the zeroed signature buffer and the all-false
bitmap, record the first arrival instant. -/
def initEntry (incoming : spdu_fragment) (receive_time : ℤ) : PendingMessage :=
  { template := { incoming with
      fragment_index := 0
      fragment_length := 0
      signature_fragment := List.replicate MAX_SIGNATURE_FRAGMENT_SIZE 0 }
    signature_buffer := List.replicate incoming.signature_buffer_length 0
    fragments_received := List.replicate incoming.fragment_count false
    first_fragment_time := receive_time }

/-- Semantics of `std::copy_n(src.begin(), len, buffer.begin() + offset)`: the bytes
of `buffer` at indices `[offset, offset+len)` replaced by the first
`len` bytes of `src`. -/
def copyInto (buffer src : List ℕ) (offset len : ℕ) : List ℕ :=
  buffer.take offset ++ src.take len ++ buffer.drop (offset + len)

/-- The receiver's acceptance checks (Vehicle.cpp lines 289-293):
index in range of the bitmap, index not yet received, and declared
`signature_offset + fragment_length` within the allocated buffer. -/
def receive_checks_pass (entry : PendingMessage) (incoming : spdu_fragment) : Bool :=
  decide (incoming.fragment_index < entry.fragments_received.length) &&
  !(entry.fragments_received.getD incoming.fragment_index true) &&
  decide (incoming.signature_offset + incoming.fragment_length ≤ entry.signature_buffer.length)

/-- The guarded fragment write (Vehicle.cpp lines 289-300): when the
checks pass, copy `fragment_length` bytes of the fragment payload into
the signature buffer at `signature_offset` and mark the index received;
otherwise leave the entry unchanged. -/
def writeFragment (entry : PendingMessage) (incoming : spdu_fragment) : PendingMessage :=
  if receive_checks_pass entry incoming then
    { entry with
      signature_buffer := copyInto entry.signature_buffer incoming.signature_fragment
          incoming.signature_offset incoming.fragment_length
      fragments_received := entry.fragments_received.set incoming.fragment_index true }
  else
    entry

/-- The unconditional template refresh from the incoming fragment
(Vehicle.cpp lines 302-306); last writer wins. -/
def updateTemplate (entry : PendingMessage) (incoming : spdu_fragment) : PendingMessage :=
  { entry with template := { entry.template with
      data := incoming.data
      signature_buffer_length := incoming.signature_buffer_length
      certificate_signature_buffer_length := incoming.certificate_signature_buffer_length
      signature_scheme := incoming.signature_scheme
      fragment_count := incoming.fragment_count } }

/-- One receive-loop iteration on the entry for the incoming datagram's
key (Vehicle.cpp lines 276-306): lazy initialisation when the stored
signature buffer is empty, then the guarded write, then the template
refresh. -/
def receive_step (entry : PendingMessage) (incoming : spdu_fragment)
    (receive_time : ℤ) : PendingMessage :=
  let entry1 := if entry.signature_buffer.isEmpty then initEntry incoming receive_time else entry
  updateTemplate (writeFragment entry1 incoming) incoming

/-- Folding the receive loop over a list of datagrams arriving for one
key at the given times. -/
def receive_fold (entry : PendingMessage) (arrivals : List (spdu_fragment × ℤ)) :
    PendingMessage :=
  arrivals.foldl (fun e a => receive_step e a.1 a.2) entry

/-- Writing each fragment's `fragment_length` bytes of
`signature_fragment` at its `signature_offset` into a buffer. -/
def write_fragments (frags : List spdu_fragment) (buffer : List ℕ) : List ℕ :=
  frags.foldl
    (fun buf f => copyInto buf f.signature_fragment f.signature_offset f.fragment_length)
    buffer

/-- First pass of the per-SPDU fragment loop in `Vehicle::transmit`
(Vehicle.cpp lines 141-157): each fragment is paired with its uniform
draw; with positive loss rate a draw below the rate diverts the
fragment to the resend queue, otherwise it is sent.  Returns the
fragments sent on the first pass and the resend queue, each in order. -/
def transmit_first_pass (drop_rate : ℚ) :
    List (spdu_fragment × ℚ) → List spdu_fragment × List spdu_fragment
  | [] => ([], [])
  | (f, u) :: rest =>
    let tail := transmit_first_pass drop_rate rest
    if 0 < drop_rate ∧ u < drop_rate then
      (tail.1, f :: tail.2)
    else
      (f :: tail.1, tail.2)

/-- The datagrams `Vehicle::transmit` emits for one SPDU (Vehicle.cpp
lines 141-174): the first pass followed by the retry pass, which after
the 5 ms sleep sends every queued fragment once, unconditionally. -/
def transmit_spdu_sent (drop_rate : ℚ) (fragment_draws : List (spdu_fragment × ℚ)) :
    List spdu_fragment :=
  let passes := transmit_first_pass drop_rate fragment_draws
  passes.1 ++ passes.2

/-- A concrete instantiation of the opaque primitives, used to evaluate
the theorems on concrete inputs. -/
def exampleEnv : crypto_env :=
  { sha256 := fun l => 7 :: l
    tbs_image := fun t => t.message ++ [t.timestampMicros.toNat]
    ecdsa_sign := fun d => 9 :: d
    ecdsa_verify := fun _ _ _ _ => true
    falcon_verify := fun _ _ _ => true
    load_ecdsa_key := fun n b => if b then n + 100 else n
    falcon_public_key := fun _ => [1, 2, 3] }

/-- A default-constructed fragment (all C++ member initializers). -/
def exampleFragment : spdu_fragment := {}

/-- A datagram an adversarial sender can emit: it passes every receiver
check (its declared `signature_buffer_length` makes the allocated buffer
large enough) yet declares `fragment_length = 1024`, so the receiver's
`copy_n` reads 1024 bytes out of the 512-byte `signature_fragment`
array. -/
def oobFragment : spdu_fragment :=
  { vehicle_id := 0
    sequence_number := 0
    signature_scheme := SCHEME_FALCON
    fragment_index := 0
    fragment_count := 1
    signature_buffer_length := 1024
    fragment_length := 1024
    signature_offset := 0
    signature_fragment := List.replicate MAX_SIGNATURE_FRAGMENT_SIZE 0 }

/- ### Helper lemmas -/

theorem take_min_length (l : List ℕ) (n : ℕ) : l.take (min n l.length) = l.take n := by
  rcases le_total n l.length with h | h
  · rw [min_eq_left h]
  · rw [min_eq_right h, List.take_length, List.take_of_length_le h]

theorem isEmpty_false_of_length_pos (l : List ℕ) (h : 0 < l.length) : l.isEmpty = false := by
  cases l with
  | nil => simp at h
  | cons a t => rfl

theorem count_pos_of_len_pos (L fs : ℕ) (hfs : 0 < fs) (hL : 0 < L) :
    0 < (L + fs - 1) / fs := by
  have h1 : 1 ≤ (L + fs - 1) / fs := by rw [Nat.le_div_iff_mul_le hfs]; omega
  omega

theorem mul_lt_len_of_lt_count (L fs k : ℕ) (hfs : 0 < fs) (hk : k < (L + fs - 1) / fs) :
    k * fs < L := by
  have h1 : k + 1 ≤ (L + fs - 1) / fs := hk
  rw [Nat.le_div_iff_mul_le hfs] at h1
  have h2 : (k + 1) * fs = k * fs + fs := by ring
  omega

theorem len_le_count_mul (L fs : ℕ) (hfs : 0 < fs) : L ≤ ((L + fs - 1) / fs) * fs := by
  have h1 := Nat.div_add_mod (L + fs - 1) fs
  have h2 := Nat.mod_lt (L + fs - 1) hfs
  have h3 : ((L + fs - 1) / fs) * fs = fs * ((L + fs - 1) / fs) := Nat.mul_comm _ _
  omega

/-- Writing the `k`-th Falcon slice into a buffer whose first `k * fs`
bytes already hold the signature prefix extends the prefix by one
slice. -/
theorem copyInto_step (sig : List ℕ) (fs k : ℕ) (hk : k * fs < sig.length) :
    copyInto (sig.take (k * fs) ++ List.replicate (sig.length - k * fs) 0)
      (padTo ((sig.drop (k * fs)).take (min fs (sig.length - k * fs)))
        MAX_SIGNATURE_FRAGMENT_SIZE)
      (k * fs) (min fs (sig.length - k * fs))
    = sig.take ((k + 1) * fs) ++ List.replicate (sig.length - (k + 1) * fs) 0 := by
  set L := sig.length with hL
  set off := k * fs with hoff
  set len := min fs (L - off) with hlen
  have hofflt : off < L := hk
  have htklen : (sig.take off).length = off := by
    rw [List.length_take]; omega
  have hslicelen : ((sig.drop off).take len).length = len := by
    rw [List.length_take, List.length_drop]
    omega
  have h1 : (sig.take off ++ List.replicate (L - off) 0).take off = sig.take off :=
    List.take_left' htklen
  have h2 : (padTo ((sig.drop off).take len) MAX_SIGNATURE_FRAGMENT_SIZE).take len
      = (sig.drop off).take len := by
    rw [padTo]
    exact List.take_left' hslicelen
  have h3 : (sig.take off ++ List.replicate (L - off) 0).drop (off + len)
      = List.replicate (L - off - len) 0 := by
    rw [List.drop_append_eq_append_drop, htklen]
    have hd : (sig.take off).drop (off + len) = [] := by
      apply List.drop_eq_nil_of_le
      rw [htklen]; omega
    rw [hd, List.drop_replicate]
    simp only [List.nil_append]
    congr 1
    omega
  rw [copyInto, h1, h2, h3]
  have h4 : sig.take ((k + 1) * fs) = sig.take off ++ (sig.drop off).take fs := by
    have : (k + 1) * fs = off + fs := by rw [hoff]; ring
    rw [this, List.take_add]
  have h5 : (sig.drop off).take fs = (sig.drop off).take len := by
    have hlength : (sig.drop off).length = L - off := by rw [List.length_drop]
    rw [hlen, ← hlength, take_min_length]
  have h6 : L - (k + 1) * fs = L - off - len := by
    have : (k + 1) * fs = off + fs := by rw [hoff]; ring
    rw [this, hlen]
    rcases le_total fs (L - off) with h | h
    · rw [min_eq_left h]; omega
    · rw [min_eq_right h]; omega
  rw [h4, h5, h6, List.append_assoc]

theorem clamp_fragment_size_pos (r m : ℕ) (hm : 0 < m) : 0 < clamp_fragment_size r m := by
  unfold clamp_fragment_size
  split
  · exact hm
  · rename_i hr
    exact lt_min (Nat.pos_of_ne_zero hr) hm

theorem len_pos_of_count_pos (L fs : ℕ) (hfs : 0 < fs) (h : 0 < (L + fs - 1) / fs) :
    0 < L := by
  by_contra hL
  have hL0 : L = 0 := by omega
  rw [hL0] at h
  have : (0 + fs - 1) / fs = 0 := Nat.div_eq_of_lt (by omega)
  omega

theorem updateTemplate_signature_buffer (e : PendingMessage) (f : spdu_fragment) :
    (updateTemplate e f).signature_buffer = e.signature_buffer := rfl

theorem updateTemplate_fragments_received (e : PendingMessage) (f : spdu_fragment) :
    (updateTemplate e f).fragments_received = e.fragments_received := rfl

theorem updateTemplate_first_fragment_time (e : PendingMessage) (f : spdu_fragment) :
    (updateTemplate e f).first_fragment_time = e.first_fragment_time := rfl

theorem writeFragment_first_fragment_time (e : PendingMessage) (f : spdu_fragment) :
    (writeFragment e f).first_fragment_time = e.first_fragment_time := by
  unfold writeFragment
  split <;> rfl

theorem writeFragment_length_fragments_received (e : PendingMessage) (f : spdu_fragment) :
    (writeFragment e f).fragments_received.length = e.fragments_received.length := by
  unfold writeFragment
  split
  · exact List.length_set e.fragments_received f.fragment_index true
  · rfl

theorem writeFragment_of_checks_false (e : PendingMessage) (f : spdu_fragment)
    (h : receive_checks_pass e f = false) : writeFragment e f = e := by
  unfold writeFragment
  rw [h]
  simp

theorem writeFragment_of_checks_true (e : PendingMessage) (f : spdu_fragment)
    (h : receive_checks_pass e f = true) :
    writeFragment e f =
      { e with
        signature_buffer := copyInto e.signature_buffer f.signature_fragment
            f.signature_offset f.fragment_length
        fragments_received := e.fragments_received.set f.fragment_index true } := by
  unfold writeFragment
  rw [h]
  simp

theorem receive_step_signature_buffer (e : PendingMessage) (f : spdu_fragment) (t : ℤ) :
    (receive_step e f t).signature_buffer
      = (writeFragment (if e.signature_buffer.isEmpty then initEntry f t else e) f).signature_buffer := rfl

theorem receive_step_fragments_received (e : PendingMessage) (f : spdu_fragment) (t : ℤ) :
    (receive_step e f t).fragments_received
      = (writeFragment (if e.signature_buffer.isEmpty then initEntry f t else e) f).fragments_received := rfl

theorem receive_step_first_fragment_time (e : PendingMessage) (f : spdu_fragment) (t : ℤ) :
    (receive_step e f t).first_fragment_time
      = (if e.signature_buffer.isEmpty then initEntry f t else e).first_fragment_time := by
  rw [receive_step]
  rw [updateTemplate_first_fragment_time, writeFragment_first_fragment_time]

theorem set_true_replicate_append (k m : ℕ) (hm : 0 < m) :
    (List.replicate k true ++ List.replicate m false).set k true
      = List.replicate (k + 1) true ++ List.replicate (m - 1) false := by
  induction k with
  | zero =>
    cases m with
    | zero => omega
    | succ m2 => simp [List.replicate_succ]
  | succ k2 ih =>
    rw [List.replicate_succ, List.cons_append, List.set]
    rw [ih]
    rw [List.replicate_succ]
    rfl

theorem getD_replicate_append_false (k m : ℕ) (hm : 0 < m) :
    (List.replicate k true ++ List.replicate m false).getD k true = false := by
  rw [List.getD_append_right _ _ _ _ (by rw [List.length_replicate])]
  rw [List.length_replicate, Nat.sub_self]
  cases m with
  | zero => omega
  | succ m2 => rw [List.replicate_succ]; rfl

/-- Folding the Falcon fragments 0..k-1 through the plain offset-write
fills the first `k * fs` bytes of the zero buffer with the signature
prefix. -/
theorem write_fragments_filled (base : spdu_fragment) (sig : List ℕ) (fs count : ℕ)
    (hfs : 0 < fs) (hcount : count = (sig.length + fs - 1) / fs) :
    ∀ k, k ≤ count →
      write_fragments ((List.range k).map (falconFragment base sig fs count))
        (List.replicate sig.length 0)
      = sig.take (k * fs) ++ List.replicate (sig.length - k * fs) 0 := by
  intro k
  induction k with
  | zero => intro _; simp [write_fragments]
  | succ k2 ih =>
    intro hk1
    have hklt : k2 < count := by omega
    have hmul : k2 * fs < sig.length := by
      rw [hcount] at hklt
      exact mul_lt_len_of_lt_count sig.length fs k2 hfs hklt
    rw [List.range_succ, List.map_append]
    unfold write_fragments
    rw [List.foldl_append]
    have hprev := ih (by omega)
    unfold write_fragments at hprev
    rw [hprev]
    simp only [List.map_cons, List.map_nil, List.foldl_cons, List.foldl_nil]
    have hfields : (falconFragment base sig fs count k2).signature_fragment
        = padTo ((sig.drop (k2 * fs)).take (min fs (sig.length - k2 * fs)))
            MAX_SIGNATURE_FRAGMENT_SIZE := rfl
    rw [hfields]
    exact copyInto_step sig fs k2 hmul

/-- Feeding the Falcon fragments 0..k-1 in order into the receive loop
from a fresh entry leaves the signature buffer holding the first
`k * fs` signature bytes (zero elsewhere) and the bitmap with the first
`k` bits set. -/
theorem receive_fold_falcon_filled (base : spdu_fragment) (sig : List ℕ) (fs count : ℕ)
    (t : ℤ) (hfs : 0 < fs) (hcount : count = (sig.length + fs - 1) / fs) :
    ∀ k, 1 ≤ k → k ≤ count →
      (receive_fold freshEntry
          (((List.range k).map (falconFragment base sig fs count)).map (fun fr => (fr, t)))).signature_buffer
        = sig.take (k * fs) ++ List.replicate (sig.length - k * fs) 0 ∧
      (receive_fold freshEntry
          (((List.range k).map (falconFragment base sig fs count)).map (fun fr => (fr, t)))).fragments_received
        = List.replicate k true ++ List.replicate (count - k) false := by
  intro k hk1
  induction k, hk1 using Nat.le_induction with
  | base =>
    intro hkc
    have hcpos : 0 < count := hkc
    have hLpos : 0 < sig.length := by
      rw [hcount] at hcpos
      exact len_pos_of_count_pos sig.length fs hfs hcpos
    have harr : ((List.range 1).map (falconFragment base sig fs count)).map (fun fr => (fr, t))
        = [(falconFragment base sig fs count 0, t)] := rfl
    rw [harr]
    have hstep : receive_fold freshEntry [(falconFragment base sig fs count 0, t)]
        = receive_step freshEntry (falconFragment base sig fs count 0) t := rfl
    rw [hstep]
    have hinit : (if freshEntry.signature_buffer.isEmpty
          then initEntry (falconFragment base sig fs count 0) t else freshEntry)
        = initEntry (falconFragment base sig fs count 0) t := by
      rfl
    have hbuf0 : (initEntry (falconFragment base sig fs count 0) t).signature_buffer
        = List.replicate sig.length 0 := rfl
    have hbit0 : (initEntry (falconFragment base sig fs count 0) t).fragments_received
        = List.replicate count false := rfl
    have hchecks : receive_checks_pass (initEntry (falconFragment base sig fs count 0) t)
        (falconFragment base sig fs count 0) = true := by
      rw [receive_checks_pass, hbuf0, hbit0]
      have h1 : (falconFragment base sig fs count 0).fragment_index = 0 := rfl
      have h2 : (falconFragment base sig fs count 0).signature_offset = 0 * fs := rfl
      have h3 : (falconFragment base sig fs count 0).fragment_length
          = min fs (sig.length - 0 * fs) := rfl
      rw [h1, h2, h3]
      have hg : (List.replicate count false).getD 0 true = false := by
        cases count with
        | zero => omega
        | succ c2 => rw [List.replicate_succ]; rfl
      rw [hg]
      simp only [Bool.not_false, Bool.and_true, Bool.true_and, List.length_replicate]
      rw [Bool.and_eq_true, decide_eq_true_iff, decide_eq_true_iff]
      constructor
      · exact hcpos
      · have : min fs (sig.length - 0 * fs) ≤ sig.length - 0 * fs := min_le_right _ _
        omega
    rw [receive_step_signature_buffer, receive_step_fragments_received, hinit,
      writeFragment_of_checks_true _ _ hchecks]
    constructor
    · show copyInto (initEntry (falconFragment base sig fs count 0) t).signature_buffer
          (falconFragment base sig fs count 0).signature_fragment
          (falconFragment base sig fs count 0).signature_offset
          (falconFragment base sig fs count 0).fragment_length
        = sig.take (1 * fs) ++ List.replicate (sig.length - 1 * fs) 0
      have h2 : (falconFragment base sig fs count 0).signature_offset = 0 * fs := rfl
      have h3 : (falconFragment base sig fs count 0).fragment_length
          = min fs (sig.length - 0 * fs) := rfl
      have h4 : (falconFragment base sig fs count 0).signature_fragment
          = padTo ((sig.drop (0 * fs)).take (min fs (sig.length - 0 * fs)))
              MAX_SIGNATURE_FRAGMENT_SIZE := rfl
      rw [hbuf0, h2, h3, h4]
      have hc := copyInto_step sig fs 0 (by simpa using hLpos)
      simpa using hc
    · show (initEntry (falconFragment base sig fs count 0) t).fragments_received.set
          (falconFragment base sig fs count 0).fragment_index true
        = List.replicate 1 true ++ List.replicate (count - 1) false
      rw [hbit0]
      have h1 : (falconFragment base sig fs count 0).fragment_index = 0 := rfl
      rw [h1]
      have := set_true_replicate_append 0 count hcpos
      simpa using this
  | succ k2 hk2 ih =>
    intro hkc
    have hklt : k2 < count := by omega
    have hprev := ih (by omega)
    have hmul : k2 * fs < sig.length := by
      rw [hcount] at hklt
      exact mul_lt_len_of_lt_count sig.length fs k2 hfs hklt
    have hmul2 : k2 * fs ≤ sig.length := le_of_lt hmul
    rw [List.range_succ, List.map_append, List.map_append]
    have hsplit : receive_fold freshEntry
        ((((List.range k2).map (falconFragment base sig fs count)).map (fun fr => (fr, t)))
          ++ (([k2].map (falconFragment base sig fs count)).map (fun fr => (fr, t))))
        = receive_step
            (receive_fold freshEntry
              (((List.range k2).map (falconFragment base sig fs count)).map (fun fr => (fr, t))))
            (falconFragment base sig fs count k2) t := by
      rw [receive_fold, List.foldl_append]
      rfl
    rw [hsplit]
    set X := receive_fold freshEntry
        (((List.range k2).map (falconFragment base sig fs count)).map (fun fr => (fr, t))) with hX
    have hbufX : X.signature_buffer = sig.take (k2 * fs) ++ List.replicate (sig.length - k2 * fs) 0 :=
      hprev.1
    have hbitX : X.fragments_received = List.replicate k2 true ++ List.replicate (count - k2) false :=
      hprev.2
    have hbuflen : X.signature_buffer.length = sig.length := by
      rw [hbufX, List.length_append, List.length_take, List.length_replicate]
      omega
    have hne : X.signature_buffer.isEmpty = false := by
      apply isEmpty_false_of_length_pos
      rw [hbuflen]
      omega
    have hinit : (if X.signature_buffer.isEmpty then initEntry (falconFragment base sig fs count k2) t else X)
        = X := by
      rw [hne]
      rfl
    have hchecks : receive_checks_pass X (falconFragment base sig fs count k2) = true := by
      rw [receive_checks_pass]
      have h1 : (falconFragment base sig fs count k2).fragment_index = k2 := rfl
      have h2 : (falconFragment base sig fs count k2).signature_offset = k2 * fs := rfl
      have h3 : (falconFragment base sig fs count k2).fragment_length
          = min fs (sig.length - k2 * fs) := rfl
      rw [h1, h2, h3, hbitX, hbuflen]
      have hg : (List.replicate k2 true ++ List.replicate (count - k2) false).getD k2 true = false :=
        getD_replicate_append_false k2 (count - k2) (by omega)
      rw [hg]
      simp only [Bool.not_false, Bool.and_true, List.length_append, List.length_replicate]
      rw [Bool.and_eq_true, decide_eq_true_iff, decide_eq_true_iff]
      constructor
      · omega
      · have : min fs (sig.length - k2 * fs) ≤ sig.length - k2 * fs := min_le_right _ _
        omega
    rw [receive_step_signature_buffer, receive_step_fragments_received, hinit,
      writeFragment_of_checks_true _ _ hchecks]
    constructor
    · show copyInto X.signature_buffer
          (falconFragment base sig fs count k2).signature_fragment
          (falconFragment base sig fs count k2).signature_offset
          (falconFragment base sig fs count k2).fragment_length
        = sig.take ((k2 + 1) * fs) ++ List.replicate (sig.length - (k2 + 1) * fs) 0
      rw [hbufX]
      exact copyInto_step sig fs k2 hmul
    · show X.fragments_received.set (falconFragment base sig fs count k2).fragment_index true
        = List.replicate (k2 + 1) true ++ List.replicate (count - (k2 + 1)) false
      rw [hbitX]
      have h1 : (falconFragment base sig fs count k2).fragment_index = k2 := rfl
      rw [h1]
      rw [set_true_replicate_append k2 (count - k2) (by omega)]
      have hcc : count - (k2 + 1) = count - k2 - 1 := by omega
      rw [hcc]

theorem getD_falcon_fragments (base : spdu_fragment) (sig : List ℕ) (cfg i : ℕ)
    (fb : spdu_fragment) (hi : i < (sign_message_falcon base sig cfg).length) :
    (sign_message_falcon base sig cfg).getD i fb
      = falconFragment base sig (clamp_fragment_size cfg MAX_SIGNATURE_FRAGMENT_SIZE)
          ((sig.length + clamp_fragment_size cfg MAX_SIGNATURE_FRAGMENT_SIZE - 1)
            / clamp_fragment_size cfg MAX_SIGNATURE_FRAGMENT_SIZE) i := by
  rw [List.getD_eq_getElem _ _ hi]
  show ((List.range _).map _)[i] = _
  rw [List.getElem_map]
  congr 1
  exact List.getElem_range _ _

theorem length_falcon_fragments (base : spdu_fragment) (sig : List ℕ) (cfg : ℕ) :
    (sign_message_falcon base sig cfg).length
      = (sig.length + clamp_fragment_size cfg MAX_SIGNATURE_FRAGMENT_SIZE - 1)
          / clamp_fragment_size cfg MAX_SIGNATURE_FRAGMENT_SIZE := by
  rw [sign_message_falcon]
  simp

/- ### Claims -/

/-- C1.  For every Falcon-signed SPDU, writing each emitted fragment's
`fragment_length` bytes of `signature_fragment` at its
`signature_offset` into a zero buffer of `signature_buffer_length`
(= signature length) bytes reconstructs the signer's signature
byte-for-byte (first conjunct); the receive loop fed the full honest
fragment list from a fresh entry reassembles exactly that signature
(second conjunct); and the fragments' slices are contiguous and start
at offset 0 and end at the buffer's end, hence are disjoint and cover
the whole buffer (remaining conjuncts).  The hypothesis bounds the
signature by `MAX_SIGNATURE_TOTAL_SIZE`, the allocation bound
`falcon_sign` writes into (Vehicle.cpp line 488), under which every
C++ integer cast in the fragment loop is lossless. -/
theorem claim_C1 (base : spdu_fragment) (sig : List ℕ) (cfg : ℕ) (t : ℤ)
    (hL : sig.length ≤ MAX_SIGNATURE_TOTAL_SIZE) :
    (write_fragments (sign_message_falcon base sig cfg) (List.replicate sig.length 0) = sig) ∧
    ((receive_fold freshEntry
        ((sign_message_falcon base sig cfg).map (fun fr => (fr, t)))).signature_buffer = sig) ∧
    (∀ i, i + 1 < (sign_message_falcon base sig cfg).length →
       ((sign_message_falcon base sig cfg).getD (i + 1) base).signature_offset
         = ((sign_message_falcon base sig cfg).getD i base).signature_offset
           + ((sign_message_falcon base sig cfg).getD i base).fragment_length) ∧
    (0 < (sign_message_falcon base sig cfg).length →
       ((sign_message_falcon base sig cfg).getD 0 base).signature_offset = 0 ∧
       ((sign_message_falcon base sig cfg).getD
           ((sign_message_falcon base sig cfg).length - 1) base).signature_offset
         + ((sign_message_falcon base sig cfg).getD
             ((sign_message_falcon base sig cfg).length - 1) base).fragment_length
         = sig.length) := by
  set fs := clamp_fragment_size cfg MAX_SIGNATURE_FRAGMENT_SIZE with hfsdef
  have hfs : 0 < fs := clamp_fragment_size_pos cfg MAX_SIGNATURE_FRAGMENT_SIZE (by norm_num [MAX_SIGNATURE_FRAGMENT_SIZE])
  set count := (sig.length + fs - 1) / fs with hcountdef
  have hdef : sign_message_falcon base sig cfg
      = (List.range count).map (falconFragment base sig fs count) := rfl
  have hlen : (sign_message_falcon base sig cfg).length = count := by
    rw [hdef]; simp
  have hLle : sig.length ≤ count * fs := len_le_count_mul sig.length fs hfs
  refine ⟨?_, ?_, ?_, ?_⟩
  · rw [hdef]
    rw [write_fragments_filled base sig fs count hfs hcountdef count (le_refl count)]
    rw [List.take_of_length_le hLle]
    have hz : sig.length - count * fs = 0 := by omega
    rw [hz]
    simp
  · rcases Nat.eq_zero_or_pos count with hc0 | hcpos
    · have hL0 : sig.length = 0 := by
        by_contra hne
        have := count_pos_of_len_pos sig.length fs hfs (Nat.pos_of_ne_zero hne)
        omega
      have hsignil : sig = [] := List.length_eq_zero.mp hL0
      rw [hdef, hc0, hsignil]
      rfl
    · rw [hdef]
      have hmain := (receive_fold_falcon_filled base sig fs count t hfs hcountdef count hcpos
        (le_refl count)).1
      rw [hmain, List.take_of_length_le hLle]
      have hz : sig.length - count * fs = 0 := by omega
      rw [hz]
      simp
  · intro i hi
    rw [hlen] at hi
    rw [getD_falcon_fragments base sig cfg (i + 1) base (by rw [hlen]; omega),
      getD_falcon_fragments base sig cfg i base (by rw [hlen]; omega)]
    have hoff1 : (falconFragment base sig fs count (i + 1)).signature_offset = (i + 1) * fs := rfl
    have hoff0 : (falconFragment base sig fs count i).signature_offset = i * fs := rfl
    have hlen0 : (falconFragment base sig fs count i).fragment_length
        = min fs (sig.length - i * fs) := rfl
    rw [hoff1, hoff0, hlen0]
    have hmul : (i + 1) * fs < sig.length := mul_lt_len_of_lt_count sig.length fs (i + 1) hfs hi
    have hminfs : min fs (sig.length - i * fs) = fs := by
      apply min_eq_left
      have h1 : (i + 1) * fs = i * fs + fs := by ring
      omega
    rw [hminfs]
    ring
  · intro hpos
    rw [hlen] at hpos
    constructor
    · rw [getD_falcon_fragments base sig cfg 0 base (by rw [hlen]; omega)]
      have h0 : (falconFragment base sig fs count 0).signature_offset = 0 * fs := rfl
      rw [h0]
      exact Nat.zero_mul fs
    · rw [hlen]
      rw [getD_falcon_fragments base sig cfg (count - 1) base (by rw [hlen]; omega)]
      have hoff : (falconFragment base sig fs count (count - 1)).signature_offset
          = (count - 1) * fs := rfl
      have hflen : (falconFragment base sig fs count (count - 1)).fragment_length
          = min fs (sig.length - (count - 1) * fs) := rfl
      rw [hoff, hflen]
      have hmul : (count - 1) * fs < sig.length :=
        mul_lt_len_of_lt_count sig.length fs (count - 1) hfs (by omega)
      have hcm : count * fs = (count - 1) * fs + fs := by
        have h1 : ((count - 1) + 1) * fs = (count - 1) * fs + fs := by ring
        have h2 : count = (count - 1) + 1 := by omega
        nth_rewrite 1 [h2]
        exact h1
      have hmin : min fs (sig.length - (count - 1) * fs) = sig.length - (count - 1) * fs := by
        apply min_eq_right
        omega
      rw [hmin]
      omega

/-- Witness for C1: a 5-byte signature fragmented at configured size 2
(three fragments) is reconstructed byte-for-byte both by the plain
offset-write and by the receive loop. -/
theorem claim_C1_witness :
    write_fragments (sign_message_falcon exampleFragment [1, 2, 3, 4, 5] 2)
        (List.replicate 5 0) = [1, 2, 3, 4, 5] ∧
    (receive_fold freshEntry
        ((sign_message_falcon exampleFragment [1, 2, 3, 4, 5] 2).map
          (fun fr => (fr, (0 : ℤ))))).signature_buffer = [1, 2, 3, 4, 5] := by
  have h := claim_C1 exampleFragment [1, 2, 3, 4, 5] 2 0 (by norm_num [MAX_SIGNATURE_TOTAL_SIZE])
  exact ⟨h.1, h.2.1⟩

/-- The verifier equals the conjunction of its two signature checks and
the freshness bit; the `double` millisecond comparison of the source is
equivalent to the strict integer microsecond bound. -/
theorem verify_message_eq (env : crypto_env) (spdu : spdu_fragment) (S : List ℕ)
    (rt : ℤ) (vid : ℕ) :
    verify_message env spdu S rt vid
      = (cert_check env spdu vid && sig_check env spdu S vid &&
         decide (rt - spdu.data.signedData.tbsData.timestampMicros < 30000 * 1000)) := by
  have hiff : (((rt - spdu.data.signedData.tbsData.timestampMicros : ℤ) : ℚ) / 1000 < 30000)
      ↔ (rt - spdu.data.signedData.tbsData.timestampMicros < 30000 * 1000) := by
    rw [div_lt_iff (by norm_num : (0 : ℚ) < 1000)]
    constructor
    · intro h
      exact_mod_cast h
    · intro h
      exact_mod_cast h
  have hdec : decide (((rt - spdu.data.signedData.tbsData.timestampMicros : ℤ) : ℚ) / 1000 < 30000)
      = decide (rt - spdu.data.signedData.tbsData.timestampMicros < 30000 * 1000) := by
    rw [decide_eq_decide]
    exact hiff
  simp only [verify_message, cert_check, sig_check]
  rw [hdec]

/-- C2.  For every completed SPDU the verifier returns
`cert_ok AND sig_ok AND recent`, with `recent` holding iff the receive
time minus the header timestamp is strictly below 30 000 ms (first
conjunct, with the bound in microseconds); an SPDU at least 30 000 ms
old is reported invalid even when both signature checks pass (second
conjunct); and a failing cryptographic primitive — either check
returning `false` — yields the overall boolean `false` rather than an
abort (`verify_message` is a total boolean function; last two
conjuncts). -/
theorem claim_C2 (env : crypto_env) (spdu : spdu_fragment) (S : List ℕ) (rt : ℤ) (vid : ℕ) :
    (verify_message env spdu S rt vid
       = (cert_check env spdu vid && sig_check env spdu S vid &&
          decide (rt - spdu.data.signedData.tbsData.timestampMicros < 30000 * 1000))) ∧
    (30000 * 1000 ≤ rt - spdu.data.signedData.tbsData.timestampMicros →
       verify_message env spdu S rt vid = false) ∧
    (cert_check env spdu vid = false → verify_message env spdu S rt vid = false) ∧
    (sig_check env spdu S vid = false → verify_message env spdu S rt vid = false) := by
  have hfirst := verify_message_eq env spdu S rt vid
  refine ⟨hfirst, ?_, ?_, ?_⟩
  · intro h
    rw [hfirst]
    have hnot : ¬(rt - spdu.data.signedData.tbsData.timestampMicros < 30000 * 1000) := by omega
    simp [hnot]
    intro _ _
    omega
  · intro h
    rw [hfirst, h]
    simp
  · intro h
    rw [hfirst, h]
    simp

/-- Witness for C2: a stale SPDU (timestamp 0, received at exactly
30 000 000 µs) is reported invalid. -/
theorem claim_C2_witness :
    verify_message exampleEnv exampleFragment [] 30000000 0 = false :=
  (claim_C2 exampleEnv exampleFragment [] 30000000 0).2.1 (by decide)

/-- C4.  The payload-signature check verifies the reassembled buffer
against the SHA-256 digest of the tbsData image when the declared
scheme is ECDSA, and against the raw tbsData image (no pre-hash) with
Falcon when the declared scheme is FALCON. -/
theorem claim_C4 (env : crypto_env) (spdu : spdu_fragment) (S : List ℕ) (rt : ℤ) (vid : ℕ) :
    (spdu.signature_scheme = SCHEME_ECDSA →
       verify_message env spdu S rt vid
         = (cert_check env spdu vid &&
            env.ecdsa_verify (env.sha256 (env.tbs_image spdu.data.signedData.tbsData)) S
              spdu.signature_buffer_length (env.load_ecdsa_key vid false) &&
            decide (rt - spdu.data.signedData.tbsData.timestampMicros < 30000 * 1000))) ∧
    (spdu.signature_scheme = SCHEME_FALCON →
       verify_message env spdu S rt vid
         = (cert_check env spdu vid &&
            env.falcon_verify (env.tbs_image spdu.data.signedData.tbsData) S
              (env.falcon_public_key vid) &&
            decide (rt - spdu.data.signedData.tbsData.timestampMicros < 30000 * 1000))) := by
  have hfirst := verify_message_eq env spdu S rt vid
  constructor
  · intro h
    rw [hfirst]
    rw [sig_check, if_pos h]
  · intro h
    rw [hfirst]
    rw [sig_check, if_neg (by rw [h]; norm_num [SCHEME_FALCON, SCHEME_ECDSA])]

/-- Witness for C4: the ECDSA branch on the default fragment and the
Falcon branch on the same fragment retagged FALCON. -/
theorem claim_C4_witness :
    (verify_message exampleEnv exampleFragment [] 5 0
       = (cert_check exampleEnv exampleFragment 0 &&
          exampleEnv.ecdsa_verify
            (exampleEnv.sha256 (exampleEnv.tbs_image exampleFragment.data.signedData.tbsData)) []
            exampleFragment.signature_buffer_length (exampleEnv.load_ecdsa_key 0 false) &&
          decide ((5 : ℤ) - exampleFragment.data.signedData.tbsData.timestampMicros < 30000 * 1000))) ∧
    (verify_message exampleEnv { exampleFragment with signature_scheme := SCHEME_FALCON } [] 5 0
       = (cert_check exampleEnv { exampleFragment with signature_scheme := SCHEME_FALCON } 0 &&
          exampleEnv.falcon_verify
            (exampleEnv.tbs_image
              ({ exampleFragment with signature_scheme := SCHEME_FALCON } : spdu_fragment).data.signedData.tbsData) []
            (exampleEnv.falcon_public_key 0) &&
          decide ((5 : ℤ) - ({ exampleFragment with signature_scheme := SCHEME_FALCON } : spdu_fragment).data.signedData.tbsData.timestampMicros < 30000 * 1000))) :=
  ⟨(claim_C4 exampleEnv exampleFragment [] 5 0).1 rfl,
   (claim_C4 exampleEnv { exampleFragment with signature_scheme := SCHEME_FALCON } [] 5 0).2 rfl⟩

/-- C3.  The Falcon signer uses fragment size 512 when the configured
size is 0 and `min(configured, 512)` otherwise, emits
`⌈L / fragment_size⌉` fragments, and fragment `i` carries scheme tag
FALCON, index `i`, the total count, buffer length `L`, offset
`i * fragment_size`, length `min(fragment_size, L - offset)`, and the
signature slice at that offset zero-padded to 512 bytes. -/
theorem claim_C3 (base : spdu_fragment) (sig : List ℕ) (cfg i : ℕ)
    (hL : sig.length ≤ MAX_SIGNATURE_TOTAL_SIZE)
    (hi : i < (sign_message_falcon base sig cfg).length) :
    (clamp_fragment_size cfg MAX_SIGNATURE_FRAGMENT_SIZE
       = if cfg = 0 then MAX_SIGNATURE_FRAGMENT_SIZE
         else min cfg MAX_SIGNATURE_FRAGMENT_SIZE) ∧
    ((sign_message_falcon base sig cfg).length
       = (sig.length + clamp_fragment_size cfg MAX_SIGNATURE_FRAGMENT_SIZE - 1)
           / clamp_fragment_size cfg MAX_SIGNATURE_FRAGMENT_SIZE) ∧
    (((sign_message_falcon base sig cfg).getD i base).signature_scheme = SCHEME_FALCON) ∧
    (((sign_message_falcon base sig cfg).getD i base).fragment_index = i) ∧
    (((sign_message_falcon base sig cfg).getD i base).fragment_count
       = (sign_message_falcon base sig cfg).length) ∧
    (((sign_message_falcon base sig cfg).getD i base).signature_buffer_length = sig.length) ∧
    (((sign_message_falcon base sig cfg).getD i base).signature_offset
       = i * clamp_fragment_size cfg MAX_SIGNATURE_FRAGMENT_SIZE) ∧
    (((sign_message_falcon base sig cfg).getD i base).fragment_length
       = min (clamp_fragment_size cfg MAX_SIGNATURE_FRAGMENT_SIZE)
           (sig.length - i * clamp_fragment_size cfg MAX_SIGNATURE_FRAGMENT_SIZE)) ∧
    (((sign_message_falcon base sig cfg).getD i base).signature_fragment
       = padTo ((sig.drop (i * clamp_fragment_size cfg MAX_SIGNATURE_FRAGMENT_SIZE)).take
             (min (clamp_fragment_size cfg MAX_SIGNATURE_FRAGMENT_SIZE)
               (sig.length - i * clamp_fragment_size cfg MAX_SIGNATURE_FRAGMENT_SIZE)))
           MAX_SIGNATURE_FRAGMENT_SIZE) := by
  have hget := getD_falcon_fragments base sig cfg i base hi
  refine ⟨rfl, length_falcon_fragments base sig cfg, ?_, ?_, ?_, ?_, ?_, ?_, ?_⟩
  · rw [hget]; rfl
  · rw [hget]; rfl
  · rw [hget, length_falcon_fragments base sig cfg]; rfl
  · rw [hget]; rfl
  · rw [hget]; rfl
  · rw [hget]; rfl
  · rw [hget]; rfl

/-- Witness for C3: for the 5-byte signature at configured size 2,
fragment 1 has index 1 and offset 2. -/
theorem claim_C3_witness :
    ((sign_message_falcon exampleFragment [1, 2, 3, 4, 5] 2).getD 1 exampleFragment).fragment_index = 1 ∧
    ((sign_message_falcon exampleFragment [1, 2, 3, 4, 5] 2).getD 1 exampleFragment).signature_offset
      = 1 * clamp_fragment_size 2 MAX_SIGNATURE_FRAGMENT_SIZE := by
  have h := claim_C3 exampleFragment [1, 2, 3, 4, 5] 2 1
    (by norm_num [MAX_SIGNATURE_TOTAL_SIZE])
    (by rw [length_falcon_fragments]; norm_num [clamp_fragment_size, MAX_SIGNATURE_FRAGMENT_SIZE])
  exact ⟨h.2.2.2.1, h.2.2.2.2.2.2.1⟩

/-- C7.  The ECDSA signer emits exactly one fragment with
`fragment_count = 1`, `fragment_index = 0`, `signature_offset = 0`,
`fragment_length = signature_buffer_length =` the signature's length,
and the signature bytes zero-padded to 512 in `signature_fragment`; an
allocation (`ECDSA_size`) above 512 — hence in particular any actual
signature longer than 512 — is fatal at the sender (`none`). -/
theorem claim_C7 (env : crypto_env) (n seq : ℕ) (b : List ℕ) (ts : ℤ) (cert : List ℕ)
    (alloc_len : ℕ) (sig : List ℕ) (fsig : List ℕ) (cfg : ℕ)
    (hsig : sig.length ≤ alloc_len) :
    (alloc_len ≤ MAX_SIGNATURE_FRAGMENT_SIZE →
       ∃ f : spdu_fragment,
         prepare_signed_fragments env SCHEME_ECDSA n seq b ts cert alloc_len sig fsig cfg
           = some [f] ∧
         f.fragment_count = 1 ∧ f.fragment_index = 0 ∧ f.signature_offset = 0 ∧
         f.fragment_length = sig.length ∧ f.signature_buffer_length = sig.length ∧
         f.signature_fragment = padTo sig MAX_SIGNATURE_FRAGMENT_SIZE) ∧
    (MAX_SIGNATURE_FRAGMENT_SIZE < sig.length →
       prepare_signed_fragments env SCHEME_ECDSA n seq b ts cert alloc_len sig fsig cfg
         = none) := by
  constructor
  · intro halloc
    have hnone : ¬(MAX_SIGNATURE_FRAGMENT_SIZE < alloc_len) := by omega
    have heq : prepare_signed_fragments env SCHEME_ECDSA n seq b ts cert alloc_len sig fsig cfg
        = some [{ { generate_spdu env n seq b ts cert with signature_scheme := SCHEME_ECDSA } with
            signature_buffer_length := sig.length
            fragment_count := 1
            fragment_index := 0
            fragment_length := sig.length
            signature_offset := 0
            signature_fragment := (sig ++ List.replicate (alloc_len - sig.length) 0)
              ++ List.replicate (MAX_SIGNATURE_FRAGMENT_SIZE
                  - (sig ++ List.replicate (alloc_len - sig.length) 0).length) 0 }] := by
      unfold prepare_signed_fragments sign_message_ecdsa
      rw [if_pos rfl, if_neg hnone]
      rfl
    refine ⟨_, heq, rfl, rfl, rfl, rfl, rfl, ?_⟩
    show (sig ++ List.replicate (alloc_len - sig.length) 0)
        ++ List.replicate (MAX_SIGNATURE_FRAGMENT_SIZE
            - (sig ++ List.replicate (alloc_len - sig.length) 0).length) 0
      = padTo sig MAX_SIGNATURE_FRAGMENT_SIZE
    rw [List.length_append, List.length_replicate]
    rw [List.append_assoc, ← List.replicate_add]
    rw [padTo]
    congr 2
    omega
  · intro hbig
    unfold prepare_signed_fragments sign_message_ecdsa
    rw [if_pos rfl, if_pos (by omega)]
    rfl

/-- Witness for C7: a 600-byte signature is a fatal error at the
sender. -/
theorem claim_C7_witness :
    prepare_signed_fragments exampleEnv SCHEME_ECDSA 0 0 [] 0 [] 600
      (List.replicate 600 1) [] 0 = none :=
  (claim_C7 exampleEnv 0 0 [] 0 [] 600 (List.replicate 600 1) [] 0
    (by rw [List.length_replicate])).2
    (by rw [List.length_replicate]; norm_num [MAX_SIGNATURE_FRAGMENT_SIZE])

/-- C5 (amended).  In the transmitter's per-SPDU fragment loop the
resend queue receives exactly the fragments whose draw falls below the
positive loss rate, the first pass sends exactly the others, and the
retry pass then sends every queued fragment once, unconditionally — the
code draws no second loss sample on the retry — so the datagrams
emitted for an SPDU are a permutation of its fragments: every fragment,
dropped on the first pass or not, is delivered within the retry burst
(probability 1, not `(1 - p^2)^N`). -/
theorem claim_C5 (p : ℚ) (fd : List (spdu_fragment × ℚ)) :
    ((transmit_first_pass p fd).2
       = (fd.filter (fun a => decide (0 < p ∧ a.2 < p))).map Prod.fst) ∧
    ((transmit_first_pass p fd).1
       = (fd.filter (fun a => !(decide (0 < p ∧ a.2 < p)))).map Prod.fst) ∧
    List.Perm (transmit_spdu_sent p fd) (fd.map Prod.fst) := by
  have hchar : ∀ l : List (spdu_fragment × ℚ),
      (transmit_first_pass p l).2
        = (l.filter (fun a => decide (0 < p ∧ a.2 < p))).map Prod.fst ∧
      (transmit_first_pass p l).1
        = (l.filter (fun a => !(decide (0 < p ∧ a.2 < p)))).map Prod.fst := by
    intro l
    induction l with
    | nil => exact ⟨rfl, rfl⟩
    | cons a rest ih =>
      obtain ⟨f, u⟩ := a
      by_cases h : 0 < p ∧ u < p
      · constructor
        · simp only [transmit_first_pass, List.filter_cons]
          rw [if_pos h]
          simp [h, ih.1]
        · simp only [transmit_first_pass, List.filter_cons]
          rw [if_pos h]
          simp [h, ih.2]
      · constructor
        · simp only [transmit_first_pass, List.filter_cons]
          rw [if_neg h]
          simp [h, ih.1]
        · simp only [transmit_first_pass, List.filter_cons]
          rw [if_neg h]
          simp [h, ih.2]
  obtain ⟨h2, h1⟩ := hchar fd
  refine ⟨h2, h1, ?_⟩
  show List.Perm ((transmit_first_pass p fd).1 ++ (transmit_first_pass p fd).2) (fd.map Prod.fst)
  rw [h1, h2, ← List.map_append]
  have hp := List.filter_append_perm (fun a => !(decide (0 < p ∧ a.2 < p))) fd
  simp only [Bool.not_not] at hp
  exact hp.map Prod.fst

/-- Counterexample for C5 as stated: at loss rate 1/2 a one-fragment
SPDU whose draw is 0 is dropped on the first pass (queued), yet the
retry pass sends it unconditionally — the code consults no second draw —
so it is delivered with certainty, while the claimed delivery
probability `(1 - p^2)^N = 3/4` is below 1. -/
theorem claim_C5_counterexample :
    transmit_first_pass (1 / 2 : ℚ) [(exampleFragment, 0)] = ([], [exampleFragment]) ∧
    transmit_spdu_sent (1 / 2 : ℚ) [(exampleFragment, 0)] = [exampleFragment] ∧
    ((1 : ℚ) - (1 / 2 : ℚ) ^ 2) ^ (1 : ℕ) < 1 := by
  have hcond : (0 : ℚ) < 1 / 2 ∧ (0 : ℚ) < 1 / 2 := by norm_num
  have h1 : transmit_first_pass (1 / 2 : ℚ) [(exampleFragment, 0)] = ([], [exampleFragment]) := by
    simp only [transmit_first_pass]
    rw [if_pos hcond]
  refine ⟨h1, ?_, by norm_num⟩
  show (transmit_first_pass (1 / 2 : ℚ) [(exampleFragment, 0)]).1
      ++ (transmit_first_pass (1 / 2 : ℚ) [(exampleFragment, 0)]).2 = [exampleFragment]
  rw [h1]
  rfl

theorem checks_true_iff (e : PendingMessage) (f : spdu_fragment) :
    receive_checks_pass e f = true ↔
      (f.fragment_index < e.fragments_received.length ∧
       e.fragments_received.getD f.fragment_index true = false ∧
       f.signature_offset + f.fragment_length ≤ e.signature_buffer.length) := by
  rw [receive_checks_pass]
  rw [Bool.and_eq_true, Bool.and_eq_true]
  rw [decide_eq_true_iff, decide_eq_true_iff, Bool.not_eq_true']
  tauto

theorem copyInto_length (b s : List ℕ) (off len : ℕ) :
    (copyInto b s off len).length
      = min off b.length + min len s.length + (b.length - (off + len)) := by
  rw [copyInto]
  rw [List.length_append, List.length_append, List.length_take, List.length_take,
    List.length_drop]

theorem checks_congr (e1 e2 : PendingMessage) (f : spdu_fragment)
    (h1 : e1.fragments_received = e2.fragments_received)
    (h2 : e1.signature_buffer.length = e2.signature_buffer.length) :
    receive_checks_pass e1 f = receive_checks_pass e2 f := by
  rw [receive_checks_pass, receive_checks_pass, h1, h2]

theorem checks_false_of_received (e : PendingMessage) (f : spdu_fragment)
    (h : e.fragments_received.getD f.fragment_index true = true) :
    receive_checks_pass e f = false := by
  rw [receive_checks_pass, h]
  simp

theorem writeFragment_buffer_ne_nil (x : PendingMessage) (f : spdu_fragment)
    (hsf : f.signature_fragment.length = MAX_SIGNATURE_FRAGMENT_SIZE)
    (hx : x.signature_buffer ≠ []) :
    (writeFragment x f).signature_buffer ≠ [] := by
  by_cases h : receive_checks_pass x f = true
  · rw [writeFragment_of_checks_true x f h]
    obtain ⟨hidx, hrec, hoff⟩ := (checks_true_iff x f).mp h
    have hblen : 0 < x.signature_buffer.length := List.length_pos.mpr hx
    rw [← List.length_pos, copyInto_length, hsf]
    rcases Nat.eq_zero_or_pos f.fragment_length with hl | hl
    · rw [hl]
      simp
      omega
    · have h512 : 0 < MAX_SIGNATURE_FRAGMENT_SIZE := by norm_num [MAX_SIGNATURE_FRAGMENT_SIZE]
      have : 0 < min f.fragment_length MAX_SIGNATURE_FRAGMENT_SIZE := lt_min hl h512
      omega
  · rw [writeFragment_of_checks_false x f (Bool.not_eq_true _ ▸ Bool.eq_false_iff.mpr h)]
    exact hx

theorem writeFragment_buffer_of_nil (x : PendingMessage) (f : spdu_fragment)
    (hx : x.signature_buffer = []) :
    (writeFragment x f).signature_buffer = [] := by
  by_cases h : receive_checks_pass x f = true
  · rw [writeFragment_of_checks_true x f h]
    obtain ⟨hidx, hrec, hoff⟩ := (checks_true_iff x f).mp h
    rw [hx] at hoff
    simp only [List.length_nil, Nat.le_zero, Nat.add_eq_zero] at hoff
    show copyInto x.signature_buffer f.signature_fragment f.signature_offset f.fragment_length = []
    rw [copyInto, hx, hoff.1, hoff.2]
    simp
  · rw [writeFragment_of_checks_false x f (Bool.not_eq_true _ ▸ Bool.eq_false_iff.mpr h)]
    exact hx

theorem receive_step_buffer_ne_nil (e : PendingMessage) (f : spdu_fragment) (t : ℤ)
    (hsf : f.signature_fragment.length = MAX_SIGNATURE_FRAGMENT_SIZE)
    (he : e.signature_buffer ≠ []) :
    (receive_step e f t).signature_buffer ≠ [] := by
  rw [receive_step_signature_buffer]
  rw [isEmpty_false_of_length_pos _ (List.length_pos.mpr he), if_neg Bool.false_ne_true]
  exact writeFragment_buffer_ne_nil e f hsf he

theorem getD_set_self (l : List Bool) (i : ℕ) (a d : Bool) (h : i < l.length) :
    (l.set i a).getD i d = a := by
  rw [List.getD_eq_getElem _ _ (by rw [List.length_set]; exact h)]
  exact List.getElem_set_self _

/-- The per-entry state (buffer and bitmap) a receive step leaves never
depends on the entry's template, and combining the two preservation
facts: a step on one key preserves a nonempty buffer and the recorded
first-arrival instant. -/
theorem receive_fold_preserves (gs : List (spdu_fragment × ℤ)) (e : PendingMessage)
    (hgs : ∀ g ∈ gs, g.1.signature_fragment.length = MAX_SIGNATURE_FRAGMENT_SIZE)
    (he : e.signature_buffer ≠ []) :
    (receive_fold e gs).signature_buffer ≠ [] ∧
    (receive_fold e gs).first_fragment_time = e.first_fragment_time := by
  induction gs generalizing e with
  | nil => exact ⟨he, rfl⟩
  | cons g rest ih =>
    have hg : g.1.signature_fragment.length = MAX_SIGNATURE_FRAGMENT_SIZE :=
      hgs g (List.mem_cons_self g rest)
    have hstep : (receive_step e g.1 g.2).signature_buffer ≠ [] :=
      receive_step_buffer_ne_nil e g.1 g.2 hg he
    have htime : (receive_step e g.1 g.2).first_fragment_time = e.first_fragment_time := by
      rw [receive_step_first_fragment_time]
      rw [isEmpty_false_of_length_pos _ (List.length_pos.mpr he), if_neg Bool.false_ne_true]
    have hrest := ih (receive_step e g.1 g.2)
      (fun g2 hmem => hgs g2 (List.mem_cons_of_mem g hmem)) hstep
    have hunfold : receive_fold e (g :: rest) = receive_fold (receive_step e g.1 g.2) rest := rfl
    rw [hunfold]
    refine ⟨hrest.1, ?_⟩
    rw [hrest.2, htime]

/-- C6.  A datagram whose fragment index is not below the entry's
bitmap size (= its fragment_count), or whose index is already marked
received, or whose declared `signature_offset + fragment_length`
exceeds the allocated signature buffer, leaves the entry's signature
buffer and arrival bitmap unchanged (first conjunct; the entry is an
already-allocated one, i.e. its buffer is nonempty, so the lazy
initialisation does not fire); and delivering the same datagram twice
leaves the same signature buffer as delivering it once (second
conjunct).  `hsf` records that a received datagram's
`signature_fragment` is the fixed 512-byte array of the wire struct. -/
theorem claim_C6 (e : PendingMessage) (f : spdu_fragment) (t t2 : ℤ)
    (hsf : f.signature_fragment.length = MAX_SIGNATURE_FRAGMENT_SIZE) :
    ((e.signature_buffer ≠ [] ∧
        (e.fragments_received.length ≤ f.fragment_index ∨
         e.fragments_received.getD f.fragment_index true = true ∨
         e.signature_buffer.length < f.signature_offset + f.fragment_length)) →
       (receive_step e f t).signature_buffer = e.signature_buffer ∧
       (receive_step e f t).fragments_received = e.fragments_received) ∧
    (receive_step (receive_step e f t) f t2).signature_buffer
      = (receive_step e f t).signature_buffer := by
  constructor
  · rintro ⟨hne, hcond⟩
    have hie : e.signature_buffer.isEmpty = false :=
      isEmpty_false_of_length_pos _ (List.length_pos.mpr hne)
    have hcheck : receive_checks_pass e f = false := by
      rw [receive_checks_pass]
      rcases hcond with h | h | h
      · have hn : ¬(f.fragment_index < e.fragments_received.length) := by omega
        simp [hn]
      · rw [h]
        simp
      · have hn : ¬(f.signature_offset + f.fragment_length ≤ e.signature_buffer.length) := by
          omega
        simp [hn]
    constructor
    · rw [receive_step_signature_buffer, hie, if_neg Bool.false_ne_true,
        writeFragment_of_checks_false e f hcheck]
    · rw [receive_step_fragments_received, hie, if_neg Bool.false_ne_true,
        writeFragment_of_checks_false e f hcheck]
  · by_cases hb : (receive_step e f t).signature_buffer = []
    · -- the stored buffer is still empty after the first delivery, so the
      -- fragment declared a zero-length signature buffer; the second
      -- delivery re-initialises to the same empty buffer.
      have hsbl : f.signature_buffer_length = 0 := by
        by_contra hnz
        by_cases he : e.signature_buffer.isEmpty = true
        · have hinitne : (initEntry f t).signature_buffer ≠ [] := by
            show List.replicate f.signature_buffer_length 0 ≠ []
            rw [← List.length_pos, List.length_replicate]
            omega
          have := writeFragment_buffer_ne_nil (initEntry f t) f hsf hinitne
          rw [receive_step_signature_buffer, he, if_pos rfl] at hb
          exact this hb
        · have hene : e.signature_buffer ≠ [] := by
            intro hcontra
            rw [hcontra] at he
            exact he rfl
          exact receive_step_buffer_ne_nil e f t hsf hene hb
      have hie2 : (receive_step e f t).signature_buffer.isEmpty = true := by
        rw [hb]
        rfl
      rw [receive_step_signature_buffer _ f t2, hie2, if_pos rfl]
      have hinitnil : (initEntry f t2).signature_buffer = [] := by
        show List.replicate f.signature_buffer_length 0 = []
        rw [hsbl]
        rfl
      rw [writeFragment_buffer_of_nil (initEntry f t2) f hinitnil, hb]
    · -- the buffer is nonempty: no re-initialisation; either the first
      -- delivery set the bit (so the duplicate is skipped as received) or
      -- the checks failed and fail identically again.
      have hie2 : (receive_step e f t).signature_buffer.isEmpty = false := by
        apply isEmpty_false_of_length_pos
        rw [List.length_pos]
        exact hb
      rw [receive_step_signature_buffer _ f t2, hie2, if_neg Bool.false_ne_true]
      set x := if e.signature_buffer.isEmpty then initEntry f t else e with hx
      have hbufstep : (receive_step e f t).signature_buffer
          = (writeFragment x f).signature_buffer := rfl
      have hbitstep : (receive_step e f t).fragments_received
          = (writeFragment x f).fragments_received := rfl
      by_cases hcx : receive_checks_pass x f = true
      · have hidx : f.fragment_index < x.fragments_received.length :=
          ((checks_true_iff x f).mp hcx).1
        have hrec : (receive_step e f t).fragments_received.getD f.fragment_index true
            = true := by
          rw [hbitstep, writeFragment_of_checks_true x f hcx]
          exact getD_set_self x.fragments_received f.fragment_index true true hidx
        rw [writeFragment_of_checks_false _ f
          (checks_false_of_received (receive_step e f t) f hrec)]
      · have hcxf : receive_checks_pass x f = false := Bool.eq_false_iff.mpr hcx
        have hwx : writeFragment x f = x := writeFragment_of_checks_false x f hcxf
        have hsame : receive_checks_pass (receive_step e f t) f = false := by
          rw [checks_congr (receive_step e f t) x f
            (by rw [hbitstep, hwx]) (by rw [hbufstep, hwx])]
          exact hcxf
        rw [writeFragment_of_checks_false _ f hsame]

/-- Witness for C6: an entry with one received fragment ignores a
duplicate of index 0 and an out-of-range index, and re-delivery of the
same datagram leaves the same buffer. -/
theorem claim_C6_witness :
    ((receive_step
        { template := exampleFragment
          signature_buffer := [7]
          fragments_received := [true]
          first_fragment_time := 0 }
        { exampleFragment with fragment_index := 0, signature_buffer_length := 1 }
        5).signature_buffer = [7] ∧
     (receive_step
        { template := exampleFragment
          signature_buffer := [7]
          fragments_received := [true]
          first_fragment_time := 0 }
        { exampleFragment with fragment_index := 0, signature_buffer_length := 1 }
        5).fragments_received = [true]) ∧
    (receive_step
        (receive_step freshEntry
          { exampleFragment with fragment_index := 0, signature_buffer_length := 1 } 5)
        { exampleFragment with fragment_index := 0, signature_buffer_length := 1 }
        6).signature_buffer
      = (receive_step freshEntry
          { exampleFragment with fragment_index := 0, signature_buffer_length := 1 }
          5).signature_buffer := by
  have hsf : ({ exampleFragment with fragment_index := 0, signature_buffer_length := 1 }
      : spdu_fragment).signature_fragment.length = MAX_SIGNATURE_FRAGMENT_SIZE := by
    show (List.replicate MAX_SIGNATURE_FRAGMENT_SIZE (0 : ℕ)).length = MAX_SIGNATURE_FRAGMENT_SIZE
    exact List.length_replicate _ _
  constructor
  · exact (claim_C6
      { template := exampleFragment
        signature_buffer := [7]
        fragments_received := [true]
        first_fragment_time := 0 }
      { exampleFragment with fragment_index := 0, signature_buffer_length := 1 }
      5 6 hsf).1 ⟨by decide, Or.inr (Or.inl (by decide))⟩
  · exact (claim_C6 freshEntry
      { exampleFragment with fragment_index := 0, signature_buffer_length := 1 }
      5 6 hsf).2

/-- C10.  The receiver initialises a reassembly entry exactly on the
datagrams that find its stored signature buffer empty: an entry with a
nonempty buffer keeps its first-arrival instant and bitmap allocation
(first conjunct); a datagram meeting an empty buffer records its own
arrival instant and allocates the bitmap from its `fragment_count`, and
leaves the buffer empty again iff it declares
`signature_buffer_length = 0` (second conjunct); hence after a first
fragment with nonzero declared length, no later datagram for the key
re-initialises — the first-arrival instant survives any further
arrivals (third conjunct). -/
theorem claim_C10 (f : spdu_fragment) (t : ℤ) (e : PendingMessage)
    (gs : List (spdu_fragment × ℤ))
    (hsf : f.signature_fragment.length = MAX_SIGNATURE_FRAGMENT_SIZE)
    (hgs : ∀ g ∈ gs, g.1.signature_fragment.length = MAX_SIGNATURE_FRAGMENT_SIZE) :
    ((e.signature_buffer ≠ [] →
        (receive_step e f t).first_fragment_time = e.first_fragment_time ∧
        (receive_step e f t).fragments_received.length = e.fragments_received.length)) ∧
    ((e.signature_buffer = [] →
        (receive_step e f t).first_fragment_time = t ∧
        (receive_step e f t).fragments_received.length = f.fragment_count ∧
        (f.signature_buffer_length = 0 → (receive_step e f t).signature_buffer = []))) ∧
    (f.signature_buffer_length ≠ 0 →
        (receive_fold (receive_step freshEntry f t) gs).first_fragment_time = t ∧
        (receive_fold (receive_step freshEntry f t) gs).signature_buffer ≠ []) := by
  refine ⟨?_, ?_, ?_⟩
  · intro hne
    have hie : e.signature_buffer.isEmpty = false :=
      isEmpty_false_of_length_pos _ (List.length_pos.mpr hne)
    constructor
    · rw [receive_step_first_fragment_time, hie, if_neg Bool.false_ne_true]
    · rw [receive_step_fragments_received, hie, if_neg Bool.false_ne_true,
        writeFragment_length_fragments_received]
  · intro hnil
    have hie : e.signature_buffer.isEmpty = true := by rw [hnil]; rfl
    refine ⟨?_, ?_, ?_⟩
    · rw [receive_step_first_fragment_time, hie, if_pos rfl]
      rfl
    · rw [receive_step_fragments_received, hie, if_pos rfl,
        writeFragment_length_fragments_received]
      show (List.replicate f.fragment_count false).length = f.fragment_count
      rw [List.length_replicate]
    · intro hz
      rw [receive_step_signature_buffer, hie, if_pos rfl]
      apply writeFragment_buffer_of_nil
      show List.replicate f.signature_buffer_length 0 = []
      rw [hz]
      rfl
  · intro hnz
    have hie : freshEntry.signature_buffer.isEmpty = true := rfl
    have htime1 : (receive_step freshEntry f t).first_fragment_time = t := by
      rw [receive_step_first_fragment_time, hie, if_pos rfl]
      rfl
    have hne1 : (receive_step freshEntry f t).signature_buffer ≠ [] := by
      rw [receive_step_signature_buffer, hie, if_pos rfl]
      apply writeFragment_buffer_ne_nil (initEntry f t) f hsf
      show List.replicate f.signature_buffer_length 0 ≠ []
      rw [← List.length_pos, List.length_replicate]
      omega
    have hfold := receive_fold_preserves gs (receive_step freshEntry f t) hgs hne1
    exact ⟨by rw [hfold.2, htime1], hfold.1⟩

/-- Witness for C10: after a first fragment declaring a 1-byte buffer
at time 5, a later duplicate at time 9 neither resets the first-arrival
instant nor empties the buffer. -/
theorem claim_C10_witness :
    (receive_fold
        (receive_step freshEntry
          { exampleFragment with fragment_index := 0, signature_buffer_length := 1 } 5)
        [({ exampleFragment with fragment_index := 0, signature_buffer_length := 1 }, 9)]).first_fragment_time
      = 5 ∧
    (receive_fold
        (receive_step freshEntry
          { exampleFragment with fragment_index := 0, signature_buffer_length := 1 } 5)
        [({ exampleFragment with fragment_index := 0, signature_buffer_length := 1 }, 9)]).signature_buffer
      ≠ [] :=
  have hsf : ({ exampleFragment with fragment_index := 0, signature_buffer_length := 1 }
      : spdu_fragment).signature_fragment.length = MAX_SIGNATURE_FRAGMENT_SIZE := by
    show (List.replicate MAX_SIGNATURE_FRAGMENT_SIZE (0 : ℕ)).length = MAX_SIGNATURE_FRAGMENT_SIZE
    exact List.length_replicate _ _
  (claim_C10 { exampleFragment with fragment_index := 0, signature_buffer_length := 1 } 5
    freshEntry
    [({ exampleFragment with fragment_index := 0, signature_buffer_length := 1 }, 9)]
    hsf
    (by intro g hg; rw [List.mem_singleton] at hg; rw [hg]; exact hsf)).2.2 (by decide)

/-- C8.  The certificate signature is computed at SPDU assembly
(`generate_spdu`): it is the ECDSA signature of the SHA-256 of the
certificate's bytes, and every Falcon fragment of the SPDU carries
exactly that one signature together with its length (first two
conjuncts) — the fragment loop copies the template and never signs
again.  All fragments of the SPDU agree on vehicle_id,
sequence_number, scheme tag, fragment_count, signature_buffer_length
and the whole signed data (remaining conjuncts). -/
theorem claim_C8 (env : crypto_env) (n seq : ℕ) (b : List ℕ) (ts : ℤ) (cert : List ℕ)
    (sig : List ℕ) (cfg : ℕ) (i j : ℕ)
    (hi : i < (sign_message_falcon
        { generate_spdu env n seq b ts cert with signature_scheme := SCHEME_FALCON }
        sig cfg).length)
    (hj : j < (sign_message_falcon
        { generate_spdu env n seq b ts cert with signature_scheme := SCHEME_FALCON }
        sig cfg).length) :
    (((sign_message_falcon
        { generate_spdu env n seq b ts cert with signature_scheme := SCHEME_FALCON }
        sig cfg).getD i
        (generate_spdu env n seq b ts cert)).data.certificate_signature
      = env.ecdsa_sign (env.sha256 cert)) ∧
    (((sign_message_falcon
        { generate_spdu env n seq b ts cert with signature_scheme := SCHEME_FALCON }
        sig cfg).getD i
        (generate_spdu env n seq b ts cert)).certificate_signature_buffer_length
      = (env.ecdsa_sign (env.sha256 cert)).length) ∧
    (((sign_message_falcon
        { generate_spdu env n seq b ts cert with signature_scheme := SCHEME_FALCON }
        sig cfg).getD i (generate_spdu env n seq b ts cert)).vehicle_id
      = ((sign_message_falcon
        { generate_spdu env n seq b ts cert with signature_scheme := SCHEME_FALCON }
        sig cfg).getD j (generate_spdu env n seq b ts cert)).vehicle_id) ∧
    (((sign_message_falcon
        { generate_spdu env n seq b ts cert with signature_scheme := SCHEME_FALCON }
        sig cfg).getD i (generate_spdu env n seq b ts cert)).sequence_number
      = ((sign_message_falcon
        { generate_spdu env n seq b ts cert with signature_scheme := SCHEME_FALCON }
        sig cfg).getD j (generate_spdu env n seq b ts cert)).sequence_number) ∧
    (((sign_message_falcon
        { generate_spdu env n seq b ts cert with signature_scheme := SCHEME_FALCON }
        sig cfg).getD i (generate_spdu env n seq b ts cert)).signature_scheme
      = ((sign_message_falcon
        { generate_spdu env n seq b ts cert with signature_scheme := SCHEME_FALCON }
        sig cfg).getD j (generate_spdu env n seq b ts cert)).signature_scheme) ∧
    (((sign_message_falcon
        { generate_spdu env n seq b ts cert with signature_scheme := SCHEME_FALCON }
        sig cfg).getD i (generate_spdu env n seq b ts cert)).fragment_count
      = ((sign_message_falcon
        { generate_spdu env n seq b ts cert with signature_scheme := SCHEME_FALCON }
        sig cfg).getD j (generate_spdu env n seq b ts cert)).fragment_count) ∧
    (((sign_message_falcon
        { generate_spdu env n seq b ts cert with signature_scheme := SCHEME_FALCON }
        sig cfg).getD i (generate_spdu env n seq b ts cert)).signature_buffer_length
      = ((sign_message_falcon
        { generate_spdu env n seq b ts cert with signature_scheme := SCHEME_FALCON }
        sig cfg).getD j (generate_spdu env n seq b ts cert)).signature_buffer_length) ∧
    (((sign_message_falcon
        { generate_spdu env n seq b ts cert with signature_scheme := SCHEME_FALCON }
        sig cfg).getD i (generate_spdu env n seq b ts cert)).data
      = ((sign_message_falcon
        { generate_spdu env n seq b ts cert with signature_scheme := SCHEME_FALCON }
        sig cfg).getD j (generate_spdu env n seq b ts cert)).data) := by
  rw [getD_falcon_fragments _ sig cfg i _ hi, getD_falcon_fragments _ sig cfg j _ hj]
  exact ⟨rfl, rfl, rfl, rfl, rfl, rfl, rfl, rfl⟩

/-- Witness for C8: a 700-byte Falcon signature at fragment size 256
(three fragments), fragments 0 and 2: both carry the assembly-time
certificate signature and agree on the shared fields. -/
theorem claim_C8_witness :
    (((sign_message_falcon
        { generate_spdu exampleEnv 1 2 [4] 3 [9] with signature_scheme := SCHEME_FALCON }
        (List.replicate 700 5) 256).getD 0
        (generate_spdu exampleEnv 1 2 [4] 3 [9])).data.certificate_signature
      = exampleEnv.ecdsa_sign (exampleEnv.sha256 [9])) ∧
    (((sign_message_falcon
        { generate_spdu exampleEnv 1 2 [4] 3 [9] with signature_scheme := SCHEME_FALCON }
        (List.replicate 700 5) 256).getD 0
        (generate_spdu exampleEnv 1 2 [4] 3 [9])).fragment_count
      = ((sign_message_falcon
        { generate_spdu exampleEnv 1 2 [4] 3 [9] with signature_scheme := SCHEME_FALCON }
        (List.replicate 700 5) 256).getD 2
        (generate_spdu exampleEnv 1 2 [4] 3 [9])).fragment_count) := by
  have hlen : (sign_message_falcon
      { generate_spdu exampleEnv 1 2 [4] 3 [9] with signature_scheme := SCHEME_FALCON }
      (List.replicate 700 5) 256).length = 3 := by
    rw [length_falcon_fragments, List.length_replicate]
    norm_num [clamp_fragment_size, MAX_SIGNATURE_FRAGMENT_SIZE]
  have h := claim_C8 exampleEnv 1 2 [4] 3 [9] (List.replicate 700 5) 256 0 2
    (by rw [hlen]; norm_num) (by rw [hlen]; norm_num)
  exact ⟨h.1, h.2.2.2.2.2.1⟩

/-- C9 (refuting theorem).  The receiver's checks accept `oobFragment`:
its declared `signature_buffer_length` of 1024 sizes the allocated
buffer, so `signature_offset + fragment_length = 1024 ≤ 1024` passes,
yet `fragment_length = 1024` exceeds the 512-byte
`signature_fragment` array, so the accepted copy's source-read index
range `[0, fragment_length)` contains index 512, beyond the array —
the claimed in-bounds property fails. -/
theorem claim_C9 :
    receive_checks_pass (initEntry oobFragment 0) oobFragment = true ∧
    MAX_SIGNATURE_FRAGMENT_SIZE < oobFragment.fragment_length ∧
    oobFragment.signature_fragment.length = MAX_SIGNATURE_FRAGMENT_SIZE ∧
    MAX_SIGNATURE_FRAGMENT_SIZE ∈ List.range oobFragment.fragment_length := by
  refine ⟨?_, ?_, ?_, ?_⟩
  · rw [receive_checks_pass]
    have hbit : (initEntry oobFragment 0).fragments_received = List.replicate 1 false := rfl
    have hbuf : (initEntry oobFragment 0).signature_buffer = List.replicate 1024 0 := rfl
    rw [hbit, hbuf, List.length_replicate, List.length_replicate]
    have hidx : oobFragment.fragment_index = 0 := rfl
    have hoff : oobFragment.signature_offset = 0 := rfl
    have hflen : oobFragment.fragment_length = 1024 := rfl
    rw [hidx, hoff, hflen]
    rfl
  · show MAX_SIGNATURE_FRAGMENT_SIZE < 1024
    norm_num [MAX_SIGNATURE_FRAGMENT_SIZE]
  · show (List.replicate MAX_SIGNATURE_FRAGMENT_SIZE (0 : ℕ)).length = MAX_SIGNATURE_FRAGMENT_SIZE
    exact List.length_replicate _ _
  · rw [List.mem_range]
    show MAX_SIGNATURE_FRAGMENT_SIZE < 1024
    norm_num [MAX_SIGNATURE_FRAGMENT_SIZE]

end V2V
